import Mathlib

/-!
Verification development for the todo-list backend:
shallow embedding of src/backend/models/Todo.js, src/backend/routes/todos.js,
the query-validation middleware (validateTodoQuery), and the authentication
gate wiring of the todos router.

Conventions of the embedding:
* The todos table is a `List Todo`; one `Todo` value serves both as a stored
  row and as an in-memory model instance.  Timestamps are `Option Nat`
  (`none` models a JavaScript `undefined` field; the SQLite schema fills
  `created_at` / `updated_at` with `CURRENT_TIMESTAMP`, modelled as the
  explicit `now : Nat` argument).
* SQLite `ORDER BY created_at DESC` is modelled by `List.insertionSort`
  over the decidable total preorder `todoGE` (larger creation time first);
  `LIMIT l OFFSET o` is `(·.drop o).take l`.
* JavaScript `uuidv4()` is modelled by an explicit `genId` argument;
  freshness (a uuid not colliding with stored ids) is a hypothesis.
* Query parameters are `Option String` (`none` = absent); JavaScript
  truthiness of such a value is `jsTruthy`, and `parseInt` is `parseIntJS`
  (leading whitespace, optional sign, longest decimal-digit prefix;
  the rarely relevant 0x-prefix branch of parseInt is not modelled).
* The PUT body runs through the validateTodoUpdate middleware before the
  handler: the optional isLength checks apply to the raw values and the
  trim sanitizers (which follow them in each chain) are applied to the body
  the handler receives; `putTodoPipe` is that middleware-then-handler
  composition as registered on the router.
-/

namespace TodoApp

/-- A todo record / instance, after fields pass the `Todo` constructor of
src/backend/models/Todo.js. -/
structure Todo where
  id : String
  user_id : String
  title : String
  description : Option String
  completed : Bool
  created_at : Option Nat
  updated_at : Option Nat
deriving Repr, DecidableEq

/-- The status filter clause of Todo.findByUserId / Todo.getCountByUserId:
`completed` keeps completed rows, `pending` keeps incomplete rows, any other
string adds no clause. -/
def statusMatch (status : String) (t : Todo) : Bool :=
  if status == "completed" then t.completed
  else if status == "pending" then !t.completed
  else true

/-- WHERE user_id = ? plus the status clause. -/
def matchesQuery (userId status : String) (t : Todo) : Bool :=
  t.user_id == userId && statusMatch status t

/-- Sort key for ORDER BY created_at DESC (stored rows always carry a
creation time; `getD 0` totalises the `Option`). -/
def createdKey (t : Todo) : Nat := t.created_at.getD 0

/-- Newest-first ordering: `a` precedes `b` when `a` was created no earlier. -/
def todoGE (a b : Todo) : Prop := createdKey b ≤ createdKey a

instance : DecidableRel todoGE := fun _ _ => Nat.decLe _ _

instance : IsTotal Todo todoGE :=
  ⟨fun a b => Or.symm (Nat.le_total (createdKey a) (createdKey b))⟩

instance : IsTrans Todo todoGE :=
  ⟨fun _ _ _ hab hbc => Nat.le_trans hbc hab⟩

/-- Todo.findById: SELECT * FROM todos WHERE id = ? (db.get returns the
first matching row). -/
def Todo.findById (db : List Todo) (id : String) : Option Todo :=
  db.find? (fun t => t.id == id)

/-- The option bag of Todo.findByUserId; absent members take the JavaScript
destructuring defaults status='all', limit=50, offset=0. -/
structure FindOptions where
  status : Option String
  limit : Option Nat
  offset : Option Nat
deriving Repr, DecidableEq

/-- Todo.findByUserId: SELECT * FROM todos WHERE user_id = ? [status clause]
ORDER BY created_at DESC LIMIT ? OFFSET ?. -/
def Todo.findByUserId (db : List Todo) (userId : String) (opts : FindOptions) : List Todo :=
  let status := opts.status.getD "all"
  let limit := opts.limit.getD 50
  let offset := opts.offset.getD 0
  (((db.filter (matchesQuery userId status)).insertionSort todoGE).drop offset).take limit

/-- Todo.getCountByUserId: SELECT COUNT(*) with the same WHERE clauses as
findByUserId (status defaults to 'all'). -/
def Todo.getCountByUserId (db : List Todo) (userId : String) (status : Option String) : Nat :=
  (db.filter (matchesQuery userId (status.getD "all"))).length

/-- Payload of Todo.create, as passed by the POST route. -/
structure CreateData where
  user_id : String
  title : String
  description : Option String
deriving Repr, DecidableEq

/-- The constructor line `this.description = data.description || null`:
an empty string is falsy in JavaScript and becomes null. -/
def normDesc : Option String → Option String
  | none => none
  | some s => if s == "" then none else some s

/-- Todo.create: builds the instance (uuid id, normalised description,
completed=false, timestamps left undefined) and INSERTs
(id, user_id, title, description, completed); the stored row receives the
schema defaults created_at = updated_at = CURRENT_TIMESTAMP.  Returns the
instance and the new table state. -/
def Todo.create (db : List Todo) (genId : String) (data : CreateData) (now : Nat) :
    Todo × List Todo :=
  let todo : Todo :=
    { id := genId, user_id := data.user_id, title := data.title,
      description := normDesc data.description, completed := false,
      created_at := none, updated_at := none }
  let row : Todo := { todo with created_at := some now, updated_at := some now }
  (todo, db ++ [row])

/-- Update payload: `none` models a field absent from the JSON body
(JavaScript `undefined`, skipped by the `value !== undefined` test). -/
structure UpdateData where
  title : Option String
  description : Option String
  completed : Option Bool
deriving Repr, DecidableEq

/-- Whether any allowed field carries a defined value (`updates.length > 0`). -/
def UpdateData.hasAny (u : UpdateData) : Bool :=
  u.title.isSome || u.description.isSome || u.completed.isSome

/-- Assignment of the defined fields onto a record (both the SET clauses of
the SQL UPDATE and the `Object.assign(this, updateData)` on the instance). -/
def applyFields (u : UpdateData) (t : Todo) : Todo :=
  { t with
      title := u.title.getD t.title,
      description := (match u.description with | some d => some d | none => t.description),
      completed := u.completed.getD t.completed }

/-- Todo.prototype.update: collect the defined allowed fields; with none,
return the instance unchanged and issue no statement (flag false); otherwise
UPDATE the row with those fields and updated_at = CURRENT_TIMESTAMP, and
Object.assign the payload onto the instance (which does not touch the
instance's updated_at).  Returns (instance, table, whether a write ran). -/
def Todo.update (t : Todo) (u : UpdateData) (now : Nat) (db : List Todo) :
    Todo × List Todo × Bool :=
  if u.hasAny then
    (applyFields u t,
     db.map (fun r => if r.id == t.id then { applyFields u r with updated_at := some now } else r),
     true)
  else (t, db, false)

/-- Todo.prototype.delete: DELETE FROM todos WHERE id = ?. -/
def Todo.delete (t : Todo) (db : List Todo) : List Todo :=
  db.filter (fun r => !(r.id == t.id))

/-- JavaScript truthiness of an optional query-parameter string:
undefined and the empty string are falsy. -/
def jsTruthy : Option String → Bool
  | none => false
  | some s => !(s == "")

/-- Leading-whitespace skipping of parseInt (space, tab, newline, return). -/
def skipWs : List Char → List Char
  | [] => []
  | c :: r =>
    if c == ' ' || c == '\t' || c == '\n' || c == '\r' then skipWs r else c :: r

/-- Numeric value of a decimal digit character. -/
def digitVal (c : Char) : Nat := c.toNat - '0'.toNat

/-- JavaScript parseInt (radix 10): skip leading whitespace, read an optional
sign, then the longest prefix of decimal digits; `none` models NaN (no
digits).  Trailing garbage is ignored, so parseIntJS "3x" = some 3. -/
def parseIntJS (s : String) : Option Int :=
  let cs := skipWs s.toList
  let signed : Int × List Char :=
    match cs with
    | '-' :: r => (-1, r)
    | '+' :: r => (1, r)
    | r => (1, r)
  let ds := signed.2.takeWhile (fun c => c.isDigit)
  if ds.isEmpty then none
  else some (signed.1 * Int.ofNat (ds.foldl (fun acc c => acc * 10 + digitVal c) 0))

/-- Outcome of the validateTodoQuery middleware: a 400 response with an
error code, or the request continuing with the parsed query values. -/
inductive QueryCheck where
  | invalid (code : String)
  | ok (status : Option String) (limit : Nat) (offset : Nat)
deriving Repr, DecidableEq

/-- The allowed status values. -/
def validStatuses : List String := ["all", "completed", "pending"]

/-- The limit branch of validateTodoQuery: a truthy limit must parseInt to a
number in [1,100] (`none` = the 400 INVALID_LIMIT rejection), an absent or
falsy limit becomes the default 50. -/
def checkLimit (limit : Option String) : Option Nat :=
  if jsTruthy limit then
    match parseIntJS (limit.getD "") with
    | none => none
    | some n => if n < 1 || n > 100 then none else some n.toNat
  else some 50

/-- The offset branch of validateTodoQuery: a truthy offset must parseInt to
a non-negative number (`none` = the 400 INVALID_OFFSET rejection), an absent
or falsy offset becomes the default 0. -/
def checkOffset (offset : Option String) : Option Nat :=
  if jsTruthy offset then
    match parseIntJS (offset.getD "") with
    | none => none
    | some n => if n < 0 then none else some n.toNat
  else some 0

/-- validateTodoQuery of the validation middleware: reject a truthy status
outside validStatuses, then the limit check, then the offset check; when all
pass, continue with the parsed numbers (the status string is untouched). -/
def validateTodoQuery (status limit offset : Option String) : QueryCheck :=
  if jsTruthy status && !(validStatuses.contains (status.getD "")) then
    QueryCheck.invalid "INVALID_STATUS"
  else
    match checkLimit limit with
    | none => QueryCheck.invalid "INVALID_LIMIT"
    | some l =>
      match checkOffset offset with
      | none => QueryCheck.invalid "INVALID_OFFSET"
      | some o => QueryCheck.ok status l o

/-- The todos/pagination payload of a 200 response of GET /api/todos. -/
structure ListResult where
  todos : List Todo
  total : Nat
  limit : Nat
  offset : Nat
  hasMore : Bool
deriving Repr, DecidableEq

/-- Responses of the todos router, by status and payload. -/
inductive Response where
  | okTodo (todo : Todo)
  | okList (result : ListResult)
  | okDeleted
  | created (todo : Todo)
  | notFound
  | forbidden
  | badRequest (code : String)
  | unauthorized
deriving Repr, DecidableEq

/-- Body of the GET /api/todos handler after validation: findByUserId with
the validated limit/offset, getCountByUserId for the same status, and
hasMore = (offset + limit) < totalCount. -/
def getTodosHandler (db : List Todo) (userId : String) (status : Option String)
    (limit offset : Nat) : ListResult :=
  let todos := Todo.findByUserId db userId ⟨status, some limit, some offset⟩
  let total := Todo.getCountByUserId db userId status
  ⟨todos, total, limit, offset, decide (offset + limit < total)⟩

/-- GET /api/todos: validateTodoQuery, then the handler (the handler and its
storage calls run only in the ok branch). -/
def listTodosRoute (db : List Todo) (userId : String) (status limit offset : Option String) :
    Response × List Todo :=
  match validateTodoQuery status limit offset with
  | QueryCheck.invalid code => (Response.badRequest code, db)
  | QueryCheck.ok st l o => (Response.okList (getTodosHandler db userId st l o), db)

/-- POST /api/todos: Todo.create with user_id = authenticated caller, 201. -/
def createTodoRoute (db : List Todo) (userId genId title : String)
    (description : Option String) (now : Nat) : Response × List Todo :=
  let result := Todo.create db genId ⟨userId, title, description⟩ now
  (Response.created result.1, result.2)

/-- GET /api/todos/:id: findById, 404 when absent, then belongsToUser,
403 when the owner differs, else 200 with the todo. -/
def getTodoRoute (db : List Todo) (userId id : String) : Response :=
  match Todo.findById db id with
  | none => Response.notFound
  | some todo =>
    if todo.user_id == userId then Response.okTodo todo else Response.forbidden

/-- PUT /api/todos/:id: findById, 404 when absent, 403 when the owner
differs, else update and 200 with the returned instance. -/
def putTodoRoute (db : List Todo) (userId id : String) (u : UpdateData) (now : Nat) :
    Response × List Todo :=
  match Todo.findById db id with
  | none => (Response.notFound, db)
  | some todo =>
    if todo.user_id == userId then
      let result := Todo.update todo u now db
      (Response.okTodo result.1, result.2.1)
    else (Response.forbidden, db)

/-- DELETE /api/todos/:id: findById, 404 when absent, 403 when the owner
differs, else delete and 200. -/
def deleteTodoRoute (db : List Todo) (userId id : String) : Response × List Todo :=
  match Todo.findById db id with
  | none => (Response.notFound, db)
  | some todo =>
    if todo.user_id == userId then (Response.okDeleted, Todo.delete todo db)
    else (Response.forbidden, db)

/-- Whitespace characters removed by the trim sanitizer. -/
def isWsChar (c : Char) : Bool := c == ' ' || c == '\t' || c == '\n' || c == '\r'

/-- The trim sanitizer of the validation chains: strip leading and trailing
whitespace. -/
def trimStr (s : String) : String :=
  String.mk (((s.toList.dropWhile isWsChar).reverse.dropWhile isWsChar).reverse)

/-- The optional isLength check of the title chain: an absent title is
skipped, a present one must have 1 to 100 characters (checked on the raw,
untrimmed value, since isLength precedes trim in the chain). -/
def titleLenOk : Option String → Bool
  | none => true
  | some s => decide (1 ≤ s.length) && decide (s.length ≤ 100)

/-- The optional isLength check of the description chain: an absent
description is skipped, a present one may have at most 500 characters. -/
def descLenOk : Option String → Bool
  | none => true
  | some s => decide (s.length ≤ 500)

/-- The validateTodoUpdate middleware of the validation middleware: title
optional with 1-100 characters, description optional with at most 500,
completed optional boolean (a genuine JSON boolean always passes isBoolean,
so the typed payload needs no further check); handleValidationErrors
answers 400 VALIDATION_ERROR when any rule fails (modelled as none);
otherwise the trim sanitizers leave the trimmed body for the handler. -/
def validateTodoUpdate (u : UpdateData) : Option UpdateData :=
  if titleLenOk u.title && descLenOk u.description then
    some ⟨u.title.map trimStr, u.description.map trimStr, u.completed⟩
  else none

/-- PUT /api/todos/:id as registered on the router: validateTodoUpdate runs
before the handler, so a body failing validation is answered 400
VALIDATION_ERROR before findById and no storage call runs; a passing body
reaches the handler trimmed. -/
def putTodoPipe (db : List Todo) (userId id : String) (u : UpdateData) (now : Nat) :
    Response × List Todo :=
  match validateTodoUpdate u with
  | none => (Response.badRequest "VALIDATION_ERROR", db)
  | some v => putTodoRoute db userId id v now

/-- A request against the todos router: which operation, with its inputs. -/
inductive TodoOp where
  | list (status limit offset : Option String)
  | createOne (title : String) (description : Option String)
  | getOne (id : String)
  | updateOne (id : String) (u : UpdateData)
  | deleteOne (id : String)
deriving Repr, DecidableEq

/-- Modelled from the spec: the authenticateToken middleware of
src/backend/middleware/auth.js is not under src/; per spec section 4.3 the
gate extracts the bearer token (absent means UNAUTHENTICATED), verifies it
and resolves the user (any failure means UNAUTHENTICATED, modelled by the
`verify` function returning none), and otherwise yields the caller's
identity for downstream handlers. -/
def authenticateToken (verify : String → Option String) (token : Option String) :
    Option String :=
  match token with
  | none => none
  | some t => verify t

/-- Dispatch of an authenticated request to the matching route handler. -/
def handleOp (db : List Todo) (userId : String) (op : TodoOp) (now : Nat) (genId : String) :
    Response × List Todo :=
  match op with
  | TodoOp.list status limit offset => listTodosRoute db userId status limit offset
  | TodoOp.createOne title description => createTodoRoute db userId genId title description now
  | TodoOp.getOne id => (getTodoRoute db userId id, db)
  | TodoOp.updateOne id u => putTodoPipe db userId id u now
  | TodoOp.deleteOne id => deleteTodoRoute db userId id

/-- The todos router: `router.use(authenticateToken)` precedes every route
registration, so every operation passes the gate first; a rejected request
is answered 401 and never reaches a handler. -/
def todosRouter (verify : String → Option String) (db : List Todo) (token : Option String)
    (op : TodoOp) (now : Nat) (genId : String) : Response × List Todo :=
  match authenticateToken verify token with
  | none => (Response.unauthorized, db)
  | some userId => handleOp db userId op now genId

/-! ### Helper lemmas -/

theorem applyFields_id (u : UpdateData) (t : Todo) : (applyFields u t).id = t.id := rfl

theorem applyFields_user (u : UpdateData) (t : Todo) :
    (applyFields u t).user_id = t.user_id := rfl

theorem applyFields_created (u : UpdateData) (t : Todo) :
    (applyFields u t).created_at = t.created_at := rfl

theorem applyFields_updated (u : UpdateData) (t : Todo) :
    (applyFields u t).updated_at = t.updated_at := rfl

theorem applyFields_title_none (u : UpdateData) (t : Todo) (h : u.title = none) :
    (applyFields u t).title = t.title := by
  simp [applyFields, h]

theorem applyFields_desc_none (u : UpdateData) (t : Todo) (h : u.description = none) :
    (applyFields u t).description = t.description := by
  simp [applyFields, h]

theorem applyFields_completed_none (u : UpdateData) (t : Todo) (h : u.completed = none) :
    (applyFields u t).completed = t.completed := by
  simp [applyFields, h]

theorem applyFields_title_some (u : UpdateData) (t : Todo) (v : String)
    (h : u.title = some v) : (applyFields u t).title = v := by
  simp [applyFields, h]

theorem applyFields_desc_some (u : UpdateData) (t : Todo) (v : String)
    (h : u.description = some v) : (applyFields u t).description = some v := by
  simp [applyFields, h]

theorem applyFields_completed_some (u : UpdateData) (t : Todo) (v : Bool)
    (h : u.completed = some v) : (applyFields u t).completed = v := by
  simp [applyFields, h]

/-- Every todo returned by findByUserId comes from the table and matches the
user/status WHERE clause. -/
theorem mem_findByUserId (db : List Todo) (userId : String) (opts : FindOptions)
    (t : Todo) (h : t ∈ Todo.findByUserId db userId opts) :
    t ∈ db ∧ matchesQuery userId (opts.status.getD "all") t = true := by
  unfold Todo.findByUserId at h
  have h1 := List.mem_of_mem_take h
  have h2 := List.mem_of_mem_drop h1
  rw [List.mem_insertionSort] at h2
  exact List.mem_filter.mp h2

/-- With offset 0 and the table length as limit, findByUserId returns the
whole sorted filtered list. -/
theorem findByUserId_full (db : List Todo) (userId : String) (status : Option String) :
    Todo.findByUserId db userId ⟨status, some db.length, some 0⟩ =
      (db.filter (matchesQuery userId (status.getD "all"))).insertionSort todoGE := by
  unfold Todo.findByUserId
  simp only [Option.getD_some]
  rw [List.drop_zero, List.take_of_length_le]
  rw [List.length_insertionSort]
  exact List.length_filter_le _ _

/-- In a table with no duplicate ids, two stored rows with the same id are
the same row. -/
theorem id_injective (db : List Todo) (hids : (db.map Todo.id).Nodup)
    (x y : Todo) (hx : x ∈ db) (hy : y ∈ db) (h : x.id = y.id) : x = y :=
  List.inj_on_of_nodup_map hids hx hy h

/-! ### Claims -/

/-- C10: calling update with a payload in which none of title, description,
completed carries a defined value issues no storage write and returns the
todo with every field unchanged. -/
theorem C10_update_empty_noop (t : Todo) (now : Nat) (db : List Todo) :
    Todo.update t ⟨none, none, none⟩ now db = (t, db, false) := rfl

/-- C2 counterexample: a PUT whose body fails validateTodoUpdate (an empty
title) is answered 400 VALIDATION_ERROR by the middleware before findById
ever runs, so this request on an id unknown to anyone is not answered 404
as the claim states for every PUT. -/
theorem C2_counterexample :
    putTodoPipe [] "alice" "zzz" ⟨some "", none, none⟩ 0
      = (Response.badRequest "VALIDATION_ERROR", []) ∧
    Todo.findById [] "zzz" = none ∧
    Response.badRequest "VALIDATION_ERROR" ≠ Response.notFound := by decide

/-- C2 (amended): on GET/DELETE /api/todos/:id, and on PUT when the body
passes validateTodoUpdate, the existence check precedes the ownership
check: an unknown id is answered 404 NOT_FOUND for every caller, and an
existing todo owned by someone else is answered 403 FORBIDDEN; a PUT whose
body fails validation is answered 400 VALIDATION_ERROR before findById; a
non-owner of an existing todo never receives 404. -/
theorem C2_existence_before_ownership (db : List Todo) (userId id : String)
    (u : UpdateData) (now : Nat) :
    (Todo.findById db id = none →
      getTodoRoute db userId id = Response.notFound ∧
      deleteTodoRoute db userId id = (Response.notFound, db) ∧
      (∀ v, validateTodoUpdate u = some v →
        putTodoPipe db userId id u now = (Response.notFound, db)) ∧
      (validateTodoUpdate u = none →
        putTodoPipe db userId id u now = (Response.badRequest "VALIDATION_ERROR", db))) ∧
    (∀ t, Todo.findById db id = some t → t.user_id ≠ userId →
      getTodoRoute db userId id = Response.forbidden ∧
      deleteTodoRoute db userId id = (Response.forbidden, db) ∧
      (∀ v, validateTodoUpdate u = some v →
        putTodoPipe db userId id u now = (Response.forbidden, db)) ∧
      (validateTodoUpdate u = none →
        putTodoPipe db userId id u now = (Response.badRequest "VALIDATION_ERROR", db)) ∧
      (putTodoPipe db userId id u now).1 ≠ Response.notFound) := by
  constructor
  · intro h
    refine ⟨?_, ?_, ?_, ?_⟩
    · simp [getTodoRoute, h]
    · simp [deleteTodoRoute, h]
    · intro v hv
      simp [putTodoPipe, hv, putTodoRoute, h]
    · intro hv
      simp [putTodoPipe, hv]
  · intro t h hne
    have hb : (t.user_id == userId) = false := beq_eq_false_iff_ne.mpr hne
    have hput : ∀ v, validateTodoUpdate u = some v →
        putTodoPipe db userId id u now = (Response.forbidden, db) := by
      intro v hv
      simp [putTodoPipe, hv, putTodoRoute, h, hb]
    have hbad : validateTodoUpdate u = none →
        putTodoPipe db userId id u now = (Response.badRequest "VALIDATION_ERROR", db) := by
      intro hv
      simp [putTodoPipe, hv]
    refine ⟨by simp [getTodoRoute, h, hb], by simp [deleteTodoRoute, h, hb],
      hput, hbad, ?_⟩
    cases hv : validateTodoUpdate u with
    | none =>
      rw [hbad hv]
      simp
    | some v =>
      rw [hput v hv]
      simp

/-- Data for the C2 witness: a todo owned by alice, queried by bob. -/
def w2Todo : Todo := ⟨"t1", "alice", "Buy milk", none, false, some 1, some 1⟩

theorem C2_witness :
    getTodoRoute [w2Todo] "bob" "nope" = Response.notFound ∧
    getTodoRoute [w2Todo] "bob" "t1" = Response.forbidden ∧
    putTodoPipe [w2Todo] "bob" "t1" ⟨some "hi", none, none⟩ 0
      = (Response.forbidden, [w2Todo]) := by
  have hA := (C2_existence_before_ownership [w2Todo] "bob" "nope"
    ⟨some "hi", none, none⟩ 0).1 (by decide)
  have hB := (C2_existence_before_ownership [w2Todo] "bob" "t1"
    ⟨some "hi", none, none⟩ 0).2 w2Todo (by decide) (by decide)
  exact ⟨hA.1, hB.1, hB.2.2.1 ⟨some "hi", none, none⟩ (by decide)⟩

/-- C3: the authentication gate runs before every todo operation: a request
the gate rejects is answered 401 with the store untouched and no handler
runs; a handler runs only under the identity the gate resolved; a request
with no token is always rejected. -/
theorem C3_auth_gate (verify : String → Option String) (db : List Todo)
    (token : Option String) (op : TodoOp) (now : Nat) (genId : String) :
    (authenticateToken verify token = none →
      todosRouter verify db token op now genId = (Response.unauthorized, db)) ∧
    (∀ uid, authenticateToken verify token = some uid →
      todosRouter verify db token op now genId = handleOp db uid op now genId) ∧
    (token = none → authenticateToken verify token = none) := by
  refine ⟨fun h => ?_, fun uid h => ?_, fun h => ?_⟩
  · simp [todosRouter, h]
  · simp [todosRouter, h]
  · simp [authenticateToken, h]

theorem C3_witness :
    todosRouter (fun _ => none) [] none (TodoOp.getOne "t1") 0 "g1" =
      (Response.unauthorized, []) :=
  (C3_auth_gate (fun _ => none) [] none (TodoOp.getOne "t1") 0 "g1").1 rfl

/-- C8: getCountByUserId returns exactly the number of the owner's todos
matching the status filter, i.e. the length of the full findByUserId result
for the same owner and filter with pagination removed (offset 0, limit the
table size). -/
theorem C8_count_matches_list (db : List Todo) (userId : String) (status : Option String) :
    Todo.getCountByUserId db userId status =
      (Todo.findByUserId db userId ⟨status, some db.length, some 0⟩).length := by
  rw [findByUserId_full, List.length_insertionSort]
  rfl

/-- C4: findByUserId with status pending returns no completed todo, with
status completed no incomplete one; with status all (pagination wide open)
it returns the union of the two; and for every status/limit/offset the
returned sequence is sorted newest-created first. -/
theorem C4_filter_and_order (db : List Todo) (userId : String)
    (limit offset : Nat) (status : Option String) :
    (∀ t ∈ Todo.findByUserId db userId ⟨some "pending", some limit, some offset⟩,
       t.completed = false) ∧
    (∀ t ∈ Todo.findByUserId db userId ⟨some "completed", some limit, some offset⟩,
       t.completed = true) ∧
    (∀ t, t ∈ Todo.findByUserId db userId ⟨some "all", some db.length, some 0⟩ ↔
       (t ∈ Todo.findByUserId db userId ⟨some "completed", some db.length, some 0⟩ ∨
        t ∈ Todo.findByUserId db userId ⟨some "pending", some db.length, some 0⟩)) ∧
    List.Sorted todoGE (Todo.findByUserId db userId ⟨status, some limit, some offset⟩) := by
  refine ⟨fun t ht => ?_, fun t ht => ?_, fun t => ?_, ?_⟩
  · have h := (mem_findByUserId db userId ⟨some "pending", some limit, some offset⟩ t ht).2
    simp [matchesQuery, statusMatch] at h
    exact h.2
  · have h := (mem_findByUserId db userId ⟨some "completed", some limit, some offset⟩ t ht).2
    simp [matchesQuery, statusMatch] at h
    exact h.2
  · rw [findByUserId_full, findByUserId_full, findByUserId_full]
    rw [List.mem_insertionSort, List.mem_insertionSort, List.mem_insertionSort]
    simp only [List.mem_filter, matchesQuery, statusMatch, Option.getD_some]
    cases hc : t.completed <;> simp [hc]
  · unfold Todo.findByUserId
    exact List.Pairwise.sublist
      ((List.take_sublist _ _).trans (List.drop_sublist _ _))
      (List.sorted_insertionSort todoGE _)

/-- Data for the C4 witness: one pending and one completed todo of u1. -/
def w4Pending : Todo := ⟨"p1", "u1", "a", none, false, some 2, some 2⟩

def w4Done : Todo := ⟨"c1", "u1", "b", none, true, some 1, some 1⟩

def w4Db : List Todo := [w4Pending, w4Done]

theorem C4_witness :
    w4Pending ∈ Todo.findByUserId w4Db "u1" ⟨some "pending", some 50, some 0⟩ ∧
    w4Pending.completed = false :=
  ⟨by decide, (C4_filter_and_order w4Db "u1" 50 0 (some "all")).1 w4Pending (by decide)⟩

/-- C5: every GET /api/todos response satisfies
hasMore = (offset + limit) < total, with total the count for the same status
filter ignoring limit and offset; with total 10, limit 3, offset 9 the
response holds 1 todo and hasMore is false, and with offset 6 it holds
3 todos and hasMore is true. -/
theorem C5_pagination (db : List Todo) (userId : String) (status : Option String)
    (limit offset : Nat) :
    ((getTodosHandler db userId status limit offset).hasMore =
       decide (offset + limit < Todo.getCountByUserId db userId status)) ∧
    ((getTodosHandler db userId status limit offset).total =
       Todo.getCountByUserId db userId status) ∧
    (Todo.getCountByUserId db userId status = 10 →
      ((getTodosHandler db userId status 3 9).todos.length = 1 ∧
       (getTodosHandler db userId status 3 9).hasMore = false) ∧
      ((getTodosHandler db userId status 3 6).todos.length = 3 ∧
       (getTodosHandler db userId status 3 6).hasMore = true)) := by
  refine ⟨rfl, rfl, fun h => ?_⟩
  have hlen :
      ((db.filter (matchesQuery userId (status.getD "all"))).insertionSort todoGE).length
        = 10 := by
    rw [List.length_insertionSort]
    exact h
  refine ⟨⟨?_, ?_⟩, ⟨?_, ?_⟩⟩
  · simp [getTodosHandler, Todo.findByUserId, List.length_take, List.length_drop, hlen]
  · simp [getTodosHandler, h]
  · simp [getTodosHandler, Todo.findByUserId, List.length_take, List.length_drop, hlen]
  · simp [getTodosHandler, h]

/-- Ten stored todos of user u1, for the C5 witness. -/
def w5Db : List Todo :=
  (List.range 10).map (fun n => ⟨toString n, "u1", "t", none, false, some n, some n⟩)

theorem C5_witness :
    Todo.getCountByUserId w5Db "u1" (some "all") = 10 ∧
    (getTodosHandler w5Db "u1" (some "all") 3 9).todos.length = 1 ∧
    (getTodosHandler w5Db "u1" (some "all") 3 9).hasMore = false ∧
    (getTodosHandler w5Db "u1" (some "all") 3 6).todos.length = 3 ∧
    (getTodosHandler w5Db "u1" (some "all") 3 6).hasMore = true := by
  have h := (C5_pagination w5Db "u1" (some "all") 3 9).2.2 (by decide)
  exact ⟨by decide, h.1.1, h.1.2, h.2.1, h.2.2⟩

/-- C1: with unique stored ids, the API never exposes or mutates a todo of
another user: GET /api/todos/:id answers 200 only for the owner, PUT answers
200 with a todo of the caller, GET /api/todos lists only the caller's todos,
PUT and DELETE leave every other user's row in place and never introduce a
row that is not the caller's, and DELETE only removes rows. -/
theorem C1_ownership_isolation (db : List Todo) (userId id : String)
    (u : UpdateData) (now : Nat) (status : Option String) (limit offset : Nat)
    (hids : (db.map Todo.id).Nodup) :
    (∀ t, getTodoRoute db userId id = Response.okTodo t → t.user_id = userId) ∧
    (∀ t, (putTodoRoute db userId id u now).1 = Response.okTodo t → t.user_id = userId) ∧
    (∀ t ∈ (getTodosHandler db userId status limit offset).todos, t.user_id = userId) ∧
    (∀ r ∈ db, r.user_id ≠ userId → r ∈ (putTodoRoute db userId id u now).2) ∧
    (∀ r ∈ (putTodoRoute db userId id u now).2, r ∈ db ∨ r.user_id = userId) ∧
    (∀ r ∈ db, r.user_id ≠ userId → r ∈ (deleteTodoRoute db userId id).2) ∧
    (∀ r ∈ (deleteTodoRoute db userId id).2, r ∈ db) := by
  have c1 : ∀ t, getTodoRoute db userId id = Response.okTodo t → t.user_id = userId := by
    intro t h
    cases hfind : Todo.findById db id with
    | none => simp [getTodoRoute, hfind] at h
    | some todo =>
      by_cases hb : todo.user_id = userId
      · have hroute : getTodoRoute db userId id = Response.okTodo todo := by
          simp [getTodoRoute, hfind, hb]
        rw [hroute] at h
        injection h with h2
        rw [← h2]
        exact hb
      · simp [getTodoRoute, hfind, hb] at h
  have c2 : ∀ t, (putTodoRoute db userId id u now).1 = Response.okTodo t →
      t.user_id = userId := by
    intro t h
    cases hfind : Todo.findById db id with
    | none => simp [putTodoRoute, hfind] at h
    | some todo =>
      by_cases hb : todo.user_id = userId
      · have hu : (Todo.update todo u now db).1.user_id = userId := by
          unfold Todo.update
          by_cases ha : u.hasAny = true
          · simp [ha, applyFields_user, hb]
          · simp [ha, hb]
        have hroute : (putTodoRoute db userId id u now).1 =
            Response.okTodo (Todo.update todo u now db).1 := by
          simp [putTodoRoute, hfind, hb]
        rw [hroute] at h
        injection h with h2
        rw [← h2]
        exact hu
      · simp [putTodoRoute, hfind, hb] at h
  have c3 : ∀ t ∈ (getTodosHandler db userId status limit offset).todos,
      t.user_id = userId := by
    intro t ht
    have h := (mem_findByUserId db userId ⟨status, some limit, some offset⟩ t ht).2
    simp [matchesQuery] at h
    exact h.1
  have c4 : ∀ r ∈ db, r.user_id ≠ userId → r ∈ (putTodoRoute db userId id u now).2 := by
    intro r hr hne
    cases hfind : Todo.findById db id with
    | none => simpa [putTodoRoute, hfind] using hr
    | some todo =>
      have htodo := List.mem_of_find?_eq_some hfind
      by_cases hb : todo.user_id = userId
      · have hrid : (r.id == todo.id) = false := by
          refine beq_eq_false_iff_ne.mpr (fun hEq => hne ?_)
          rw [id_injective db hids r todo hr htodo hEq]
          exact hb
        by_cases ha : u.hasAny = true
        · have hdb : (putTodoRoute db userId id u now).2 =
              db.map (fun x => if x.id == todo.id then
                { applyFields u x with updated_at := some now } else x) := by
            simp [putTodoRoute, Todo.update, hfind, hb, ha]
          rw [hdb]
          exact List.mem_map.mpr ⟨r, hr, by simp [hrid]⟩
        · simpa [putTodoRoute, Todo.update, hfind, hb, ha] using hr
      · simpa [putTodoRoute, hfind, hb] using hr
  have c5 : ∀ r ∈ (putTodoRoute db userId id u now).2, r ∈ db ∨ r.user_id = userId := by
    intro r hr
    cases hfind : Todo.findById db id with
    | none =>
      left
      simpa [putTodoRoute, hfind] using hr
    | some todo =>
      have htodo := List.mem_of_find?_eq_some hfind
      by_cases hb : todo.user_id = userId
      · by_cases ha : u.hasAny = true
        · have hdb : (putTodoRoute db userId id u now).2 =
              db.map (fun x => if x.id == todo.id then
                { applyFields u x with updated_at := some now } else x) := by
            simp [putTodoRoute, Todo.update, hfind, hb, ha]
          rw [hdb] at hr
          obtain ⟨x, hx, hfx⟩ := List.mem_map.mp hr
          by_cases hxid : (x.id == todo.id) = true
          · right
            have hxeq : x = todo := id_injective db hids x todo hx htodo (eq_of_beq hxid)
            have hru : r.user_id = x.user_id := by
              rw [← hfx]
              simp [hxid, applyFields_user]
            rw [hru, hxeq]
            exact hb
          · left
            rw [← hfx]
            simpa [hxid] using hx
        · left
          simpa [putTodoRoute, Todo.update, hfind, hb, ha] using hr
      · left
        simpa [putTodoRoute, hfind, hb] using hr
  have c6 : ∀ r ∈ db, r.user_id ≠ userId → r ∈ (deleteTodoRoute db userId id).2 := by
    intro r hr hne
    cases hfind : Todo.findById db id with
    | none => simpa [deleteTodoRoute, hfind] using hr
    | some todo =>
      have htodo := List.mem_of_find?_eq_some hfind
      by_cases hb : todo.user_id = userId
      · have hrid : (r.id == todo.id) = false := by
          refine beq_eq_false_iff_ne.mpr (fun hEq => hne ?_)
          rw [id_injective db hids r todo hr htodo hEq]
          exact hb
        have hdb : (deleteTodoRoute db userId id).2 = Todo.delete todo db := by
          simp [deleteTodoRoute, hfind, hb]
        rw [hdb]
        unfold Todo.delete
        exact List.mem_filter.mpr ⟨hr, by simp [hrid]⟩
      · simpa [deleteTodoRoute, hfind, hb] using hr
  have c7 : ∀ r ∈ (deleteTodoRoute db userId id).2, r ∈ db := by
    intro r hr
    cases hfind : Todo.findById db id with
    | none => simpa [deleteTodoRoute, hfind] using hr
    | some todo =>
      by_cases hb : todo.user_id = userId
      · have hdb : (deleteTodoRoute db userId id).2 = Todo.delete todo db := by
          simp [deleteTodoRoute, hfind, hb]
        rw [hdb] at hr
        exact List.mem_of_mem_filter hr
      · simpa [deleteTodoRoute, hfind, hb] using hr
  exact ⟨c1, c2, c3, c4, c5, c6, c7⟩

/-- Data for the C1 witness: one todo of alice, one of bob. -/
def w1Alice : Todo := ⟨"a1", "alice", "a", none, false, some 1, some 1⟩

def w1Bob : Todo := ⟨"b1", "bob", "b", none, false, some 2, some 2⟩

def w1Db : List Todo := [w1Alice, w1Bob]

theorem C1_witness :
    getTodoRoute w1Db "alice" "a1" = Response.okTodo w1Alice ∧
    w1Alice.user_id = "alice" ∧
    w1Bob ∈ (deleteTodoRoute w1Db "alice" "a1").2 := by
  have h := C1_ownership_isolation w1Db "alice" "a1" ⟨none, none, none⟩ 0 (some "all")
    50 0 (by decide)
  exact ⟨by decide, h.1 w1Alice (by decide), h.2.2.2.2.2.1 w1Bob (by decide) (by decide)⟩

/-- Data for C6: a stored todo with known field values and timestamps. -/
def c6Todo : Todo := ⟨"t1", "u1", "old title", some "old desc", false, some 3, some 5⟩

/-- C6 counterexample: the claim quantifies over every payload drawn from
title/description/completed, which includes the payload supplying none of
them; with that payload update issues no write (flag false), so the stored
updated timestamp stays 5 instead of being refreshed to the current time
99. -/
theorem C6_counterexample :
    (Todo.update c6Todo ⟨none, none, none⟩ 99 [c6Todo]).2.1.map Todo.updated_at
      = [some 5] ∧
    (Todo.update c6Todo ⟨none, none, none⟩ 99 [c6Todo]).2.2 = false ∧
    (some 5 : Option Nat) ≠ some 99 := by decide

/-- C6 (amended): for every todo and payload supplying at least one of
title, description, completed, update changes only the supplied fields: the
returned instance keeps id, owner, created_at and its previous updated_at,
keeps every unsupplied field and takes every supplied one; every stored row
with a different id is untouched; and the matching stored row keeps every
unsupplied field byte-identical, takes the supplied ones, and has its
updated timestamp refreshed to the current time. -/
theorem C6_partial_update (t : Todo) (u : UpdateData) (now : Nat) (db : List Todo)
    (h : u.hasAny = true) :
    ((Todo.update t u now db).1.id = t.id ∧
     (Todo.update t u now db).1.user_id = t.user_id ∧
     (Todo.update t u now db).1.created_at = t.created_at ∧
     (Todo.update t u now db).1.updated_at = t.updated_at ∧
     (u.title = none → (Todo.update t u now db).1.title = t.title) ∧
     (u.description = none → (Todo.update t u now db).1.description = t.description) ∧
     (u.completed = none → (Todo.update t u now db).1.completed = t.completed) ∧
     (∀ v, u.title = some v → (Todo.update t u now db).1.title = v) ∧
     (∀ v, u.description = some v → (Todo.update t u now db).1.description = some v) ∧
     (∀ v, u.completed = some v → (Todo.update t u now db).1.completed = v)) ∧
    (∀ r ∈ db, r.id ≠ t.id → r ∈ (Todo.update t u now db).2.1) ∧
    (∀ r ∈ db, r.id = t.id → ∃ s ∈ (Todo.update t u now db).2.1,
       s.updated_at = some now ∧ s.id = r.id ∧ s.user_id = r.user_id ∧
       s.created_at = r.created_at ∧
       (u.title = none → s.title = r.title) ∧
       (u.description = none → s.description = r.description) ∧
       (u.completed = none → s.completed = r.completed) ∧
       (∀ v, u.title = some v → s.title = v) ∧
       (∀ v, u.description = some v → s.description = some v) ∧
       (∀ v, u.completed = some v → s.completed = v)) := by
  have hupd1 : (Todo.update t u now db).1 = applyFields u t := by
    simp [Todo.update, h]
  have hupd2 : (Todo.update t u now db).2.1 =
      db.map (fun x => if x.id == t.id then
        { applyFields u x with updated_at := some now } else x) := by
    simp [Todo.update, h]
  refine ⟨?_, ?_, ?_⟩
  · rw [hupd1]
    exact ⟨applyFields_id u t, applyFields_user u t, applyFields_created u t,
      applyFields_updated u t, applyFields_title_none u t, applyFields_desc_none u t,
      applyFields_completed_none u t, fun v hv => applyFields_title_some u t v hv,
      fun v hv => applyFields_desc_some u t v hv,
      fun v hv => applyFields_completed_some u t v hv⟩
  · intro r hr hne
    rw [hupd2]
    exact List.mem_map.mpr ⟨r, hr, by simp [beq_eq_false_iff_ne.mpr hne]⟩
  · intro r hr heq
    rw [hupd2]
    refine ⟨{ applyFields u r with updated_at := some now },
      List.mem_map.mpr ⟨r, hr, by simp [heq]⟩, rfl, ?_, ?_, ?_, ?_, ?_, ?_, ?_, ?_, ?_⟩
    · exact applyFields_id u r
    · exact applyFields_user u r
    · exact applyFields_created u r
    · exact fun hn => applyFields_title_none u r hn
    · exact fun hn => applyFields_desc_none u r hn
    · exact fun hn => applyFields_completed_none u r hn
    · exact fun v hv => applyFields_title_some u r v hv
    · exact fun v hv => applyFields_desc_some u r v hv
    · exact fun v hv => applyFields_completed_some u r v hv

theorem C6_witness :
    (Todo.update c6Todo ⟨none, none, some true⟩ 99 [c6Todo]).1.title = c6Todo.title ∧
    (Todo.update c6Todo ⟨none, none, some true⟩ 99 [c6Todo]).1.description
      = c6Todo.description ∧
    (Todo.update c6Todo ⟨none, none, some true⟩ 99 [c6Todo]).1.completed = true := by
  have h := C6_partial_update c6Todo ⟨none, none, some true⟩ 99 [c6Todo] (by decide)
  exact ⟨h.1.2.2.2.2.1 rfl, h.1.2.2.2.2.2.1 rfl, h.1.2.2.2.2.2.2.2.2.2 true rfl⟩

/-- C7 counterexample: the todo returned by create carries no creation or
update timestamp (the instance never sees the store's CURRENT_TIMESTAMP
defaults), so its timestamps are not set to the current time 42. -/
theorem C7_counterexample :
    (Todo.create [] "id1" ⟨"u1", "Buy milk", none⟩ 42).1.created_at = none ∧
    (Todo.create [] "id1" ⟨"u1", "Buy milk", none⟩ 42).1.updated_at = none ∧
    (none : Option Nat) ≠ some 42 := by decide

/-- C7 (amended): when the generated id is fresh for the table, create
returns a todo with that id (distinct from every stored id), the caller as
owner, the given title, completed false, and unset timestamp fields; it
appends exactly one stored row with the same id, owner and title, completed
false, and both stored timestamps set to the current time. -/
theorem C7_create (db : List Todo) (genId : String) (data : CreateData) (now : Nat)
    (hfresh : ∀ r ∈ db, r.id ≠ genId) :
    ((Todo.create db genId data now).1.id = genId ∧
     (Todo.create db genId data now).1.user_id = data.user_id ∧
     (Todo.create db genId data now).1.title = data.title ∧
     (Todo.create db genId data now).1.completed = false ∧
     (Todo.create db genId data now).1.created_at = none ∧
     (Todo.create db genId data now).1.updated_at = none) ∧
    (∀ r ∈ db, r.id ≠ (Todo.create db genId data now).1.id) ∧
    (∃ row, (Todo.create db genId data now).2 = db ++ [row] ∧
       row.id = genId ∧ row.user_id = data.user_id ∧ row.title = data.title ∧
       row.description = normDesc data.description ∧ row.completed = false ∧
       row.created_at = some now ∧ row.updated_at = some now) := by
  refine ⟨⟨rfl, rfl, rfl, rfl, rfl, rfl⟩, ?_, ?_⟩
  · intro r hr
    exact hfresh r hr
  · exact ⟨_, rfl, rfl, rfl, rfl, rfl, rfl, rfl, rfl⟩

theorem C7_witness :
    (Todo.create [] "id1" ⟨"u1", "Buy milk", none⟩ 42).1.id = "id1" ∧
    (Todo.create [] "id1" ⟨"u1", "Buy milk", none⟩ 42).1.completed = false := by
  have h := C7_create [] "id1" ⟨"u1", "Buy milk", none⟩ 42 (by simp)
  exact ⟨h.1.1, h.1.2.2.2.1⟩

/-- C9 counterexample: the offset "3x" is not numeric, yet the request is
not rejected: parseInt reads the digit prefix and validation continues with
offset 3 (and the default limit 50). -/
theorem C9_counterexample :
    validateTodoQuery (some "all") none (some "3x") = QueryCheck.ok (some "all") 50 3 ∧
    parseIntJS "3x" = some 3 := by decide

/-- C9 (amended): a truthy status outside all/completed/pending is rejected
400 INVALID_STATUS; a truthy limit is rejected 400 INVALID_LIMIT exactly
when parseInt yields NaN or a number outside [1,100]; a truthy offset is
rejected 400 INVALID_OFFSET when parseInt yields NaN or a negative number
(a non-numeric string with a digit prefix parses to that prefix and is
accepted); with both absent, limit defaults to 50 and offset to 0; and any
validation failure makes the route answer the 400 response with the store
untouched, before the handler and its storage calls run. -/
theorem C9_query_validation (st l o : Option String) (db : List Todo) (userId : String) :
    ((jsTruthy st && !(validStatuses.contains (st.getD ""))) = true →
       validateTodoQuery st l o = QueryCheck.invalid "INVALID_STATUS") ∧
    ((jsTruthy st && !(validStatuses.contains (st.getD ""))) = false →
       checkLimit l = none →
       validateTodoQuery st l o = QueryCheck.invalid "INVALID_LIMIT") ∧
    ((jsTruthy st && !(validStatuses.contains (st.getD ""))) = false →
       ∀ lv, checkLimit l = some lv → checkOffset o = none →
       validateTodoQuery st l o = QueryCheck.invalid "INVALID_OFFSET") ∧
    (jsTruthy l = true → parseIntJS (l.getD "") = none → checkLimit l = none) ∧
    (∀ n : Int, jsTruthy l = true → parseIntJS (l.getD "") = some n →
       (n < 1 ∨ 100 < n) → checkLimit l = none) ∧
    (jsTruthy o = true → parseIntJS (o.getD "") = none → checkOffset o = none) ∧
    (∀ n : Int, jsTruthy o = true → parseIntJS (o.getD "") = some n → n < 0 →
       checkOffset o = none) ∧
    ((jsTruthy st && !(validStatuses.contains (st.getD ""))) = false →
       validateTodoQuery st none none = QueryCheck.ok st 50 0) ∧
    (∀ code, validateTodoQuery st l o = QueryCheck.invalid code →
       listTodosRoute db userId st l o = (Response.badRequest code, db)) := by
  refine ⟨?_, ?_, ?_, ?_, ?_, ?_, ?_, ?_, ?_⟩
  · intro hbad
    unfold validateTodoQuery
    rw [hbad]
    rfl
  · intro hgood hlim
    unfold validateTodoQuery
    rw [hgood, hlim]
    rfl
  · intro hgood lv hlim hoff
    unfold validateTodoQuery
    rw [hgood, hlim, hoff]
    rfl
  · intro hj hp
    simp [checkLimit, hj, hp]
  · intro n hj hp hn
    rcases hn with h1 | h2
    · simp [checkLimit, hj, hp, h1]
    · simp [checkLimit, hj, hp, h2]

  · intro hj hp
    simp [checkOffset, hj, hp]
  · intro n hj hp hn
    simp [checkOffset, hj, hp, hn]
  · intro hgood
    unfold validateTodoQuery
    rw [hgood]
    rfl
  · intro code hcode
    simp [listTodosRoute, hcode]

theorem C9_witness :
    validateTodoQuery (some "bogus") none none = QueryCheck.invalid "INVALID_STATUS" ∧
    checkLimit (some "200") = none ∧
    checkOffset (some "-1") = none ∧
    validateTodoQuery (some "all") none none = QueryCheck.ok (some "all") 50 0 := by
  refine ⟨?_, ?_, ?_, ?_⟩
  · exact (C9_query_validation (some "bogus") none none [] "u1").1 (by decide)
  · exact (C9_query_validation (some "all") (some "200") none [] "u1").2.2.2.2.1 200
      (by decide) (by decide) (Or.inr (by decide))
  · exact (C9_query_validation (some "all") none (some "-1") [] "u1").2.2.2.2.2.2.1 (-1)
      (by decide) (by decide) (by decide)
  · exact (C9_query_validation (some "all") none none [] "u1").2.2.2.2.2.2.2.1 (by decide)

end TodoApp
